import Mathlib

/-!
# Seasaw — verification of the analysis-result data model and request lifecycle

Shallow embedding of the Seasaw client core:

* `src/app/components/NutritionLabel.tsx` — category taxonomy, per-attribute
  and aggregate fill percents, severity bar colors, category classification;
* `src/unnamed/part_003` (ScoreBadge) — grade-to-color mapping;
* `src/unnamed/part_004` (actions, `analyzeService`) — oracle call wrapper:
  validation, timeout, HTTP-error and transport-error handling;
* `src/unnamed/part_000` (Home page) + `src/unnamed/part_002` (SearchBar) —
  the request lifecycle state machine (idle / pending / success / failure).

JavaScript numbers are embedded as `ℚ` (the arithmetic used by the code is
sums, one division and one multiplication, all exact on the inputs of
interest); a JS division whose result is not finite (`0/0 = NaN`,
`x/0 = ±Infinity`) is embedded as `none : Option ℚ`.
-/

/-- `PolicyAttribute` from `src/unnamed/part_004` types: one scored policy
dimension. `severity` is kept as a raw string, as the rendering code
(`SeverityIcon`) handles arbitrary strings with a default branch. -/
structure PolicyAttribute where
  id : String
  label : String
  value : String
  severity : String
  evidence : String
  weight : ℚ
  points_earned : ℚ
deriving DecidableEq, Repr

/-- `AnalyzeResponse` (TrustReport) from the types file. -/
structure AnalyzeResponse where
  service_name : String
  domain : String
  terms_url : String
  privacy_url : String
  trust_score : ℚ
  grade : String
  analyzed_at : String
  attributes : List PolicyAttribute
  error : Option String
deriving DecidableEq, Repr

/-! ## Per-attribute fill percent and bar color (`NutritionLabel.tsx`) -/

/-- `AttributeRow`, lines 73–74:
`attr.weight > 0 ? (attr.points_earned / attr.weight) * 100 : 0`. -/
def fillPercent (attr : PolicyAttribute) : ℚ :=
  if attr.weight > 0 then attr.points_earned / attr.weight * 100 else 0

/-- `SeverityBar`, lines 59–60:
`score >= 70 ? "var(--good)" : score >= 40 ? "var(--neutral)" : "var(--bad)"`. -/
def severityBarColor (score : ℚ) : String :=
  if score ≥ 70 then "var(--good)"
  else if score ≥ 40 then "var(--neutral)"
  else "var(--bad)"

/-- `AttributeRow` passes `fillPercent` to `SeverityBar` (line 92), so the bar
color of a row is a function of the computed fill percent only. -/
def rowBarColor (attr : PolicyAttribute) : String :=
  severityBarColor (fillPercent attr)

/-! ## Aggregate score breakdown (`ScoreBreakdown`, lines 122–147) -/

/-- `data.attributes.reduce((sum, a) => sum + a.weight, 0)`. -/
def totalPossible (attrs : List PolicyAttribute) : ℚ :=
  attrs.foldl (fun sum a => sum + a.weight) 0

/-- `data.attributes.reduce((sum, a) => sum + a.points_earned, 0)`. -/
def totalEarned (attrs : List PolicyAttribute) : ℚ :=
  attrs.foldl (fun sum a => sum + a.points_earned) 0

/-- The breakdown bar width, line 135: `(totalEarned / totalPossible) * 100`
with NO guard on `totalPossible = 0`. In JS, dividing by zero yields
`NaN`/`±Infinity`; that non-finite outcome is embedded as `none`. -/
def overallFillPercent (attrs : List PolicyAttribute) : Option ℚ :=
  if totalPossible attrs = 0 then none
  else some (totalEarned attrs / totalPossible attrs * 100)

/-! ## Grade-to-color mapping (`ScoreBadge`, `src/unnamed/part_003`) -/

/-- The `colors` record literal of `getGradeColor`. -/
def gradeColors : List (String × String) :=
  [("A", "#22c55e"), ("B", "#84cc16"), ("C", "#eab308"),
   ("D", "#f97316"), ("F", "#ef4444")]

/-- The property keys a bracket read on a plain object literal finds on its
prototype chain when the own entries miss: the members of
`Object.prototype`. Each holds a function (or, for `__proto__`, the
prototype object itself) — truthy, and not a color string. -/
def objectPrototypeKeys : List String :=
  ["constructor", "hasOwnProperty", "isPrototypeOf", "propertyIsEnumerable",
   "toLocaleString", "toString", "valueOf", "__proto__",
   "__defineGetter__", "__defineSetter__", "__lookupGetter__", "__lookupSetter__"]

/-- What the JS bracket read `colors[grade]` can produce: an own string
entry, a member inherited from `Object.prototype` (truthy, never a color
string), or `undefined`. -/
inductive JsLookup where
  | str (s : String)
  | inherited (key : String)
  | undefined
deriving DecidableEq, Repr

/-- `colors[grade]`: JS property lookup consults the own entries of the
record literal first, then the prototype chain (`Object.prototype`), and
yields `undefined` only when both miss. -/
def gradeLookup (grade : String) : JsLookup :=
  match gradeColors.find? (fun p => p.1 == grade) with
  | some p => .str p.2
  | none => if grade ∈ objectPrototypeKeys then .inherited grade else .undefined

/-- `getGradeColor`: `colors[grade] || "#6b7280"` — JS `||` replaces a falsy
result (`undefined`, or an empty string) by the gray fallback, but passes a
truthy result through unchanged; an inherited `Object.prototype` member is
truthy, so for such a grade the function returns that member, not a color
string. -/
def getGradeColor (grade : String) : JsLookup :=
  match gradeLookup grade with
  | .str s => if s = "" then .str "#6b7280" else .str s
  | .inherited k => .inherited k
  | .undefined => .str "#6b7280"

/-! ## Category taxonomy and classification (`NutritionLabel.tsx`) -/

/-- One entry of the `CATEGORIES` constant. -/
structure Category where
  title : String
  icon : String
  ids : List String
deriving DecidableEq, Repr

/-- `CATEGORIES`, lines 12–33, in declaration order. -/
def CATEGORIES : List Category :=
  [⟨"Data Practices", "🔐", ["data_selling", "data_sharing", "third_party_tracking"]⟩,
   ⟨"Your Rights", "👤", ["account_deletion", "class_action_waiver", "arbitration_clause"]⟩,
   ⟨"Security & Retention", "🛡️", ["encryption", "data_retention", "government_requests"]⟩,
   ⟨"Legal Terms", "📋", ["unilateral_changes", "liability_limitation", "content_license"]⟩]

/-- Line 191: `new Map(data.attributes.map((a) => [a.id, a]))` followed by
`.get(id)`. A JS `Map` built from a pair list maps each key to the LAST value
inserted for it; embedded as a left fold of pointwise function updates. -/
def attrMap (attrs : List PolicyAttribute) : String → Option PolicyAttribute :=
  attrs.foldl (fun m a => fun k => if k = a.id then some a else m k) (fun _ => none)

/-- Lines 235–247 plus `CategorySection` line 158: for each category in
`CATEGORIES` order, `cat.ids.map((id) => attrMap.get(id)).filter(defined)`;
`CategorySection` renders nothing when the matched list is empty. -/
def classify (attrs : List PolicyAttribute) : List (Category × List PolicyAttribute) :=
  (CATEGORIES.map (fun c => (c, c.ids.filterMap (attrMap attrs)))).filter
    (fun p => !p.2.isEmpty)

/-! ## Oracle call wrapper (`analyzeService`, `src/unnamed/part_004`) -/

/-- JS `String.prototype.trim()`: strips leading and trailing whitespace.
(Lean's own `String.trim` is equivalent here but is defined through byte
positions that the kernel cannot evaluate, so the character-list form is
used.) -/
def jsTrim (s : String) : String :=
  ⟨((s.data.dropWhile Char.isWhitespace).reverse.dropWhile Char.isWhitespace).reverse⟩

/-- How the single `fetch` inside `analyzeService` can end, from the point of
view of the surrounding `try`/`catch`:
* `success data` — `res.ok` and the body parses as an `AnalyzeResponse`;
* `httpError status statusText detail` — `!res.ok`; `detail` is the `detail`
  field of the JSON error body (`none` when the body is unparseable — then
  `res.json().catch(() => ({}))` yields `{}` — or the field is absent);
* `aborted` — the 120 s timer fired `controller.abort()` before completion,
  so the awaited call throws an `AbortError` `DOMException`;
* `transportError message` — any other thrown `Error` with that message. -/
inductive FetchOutcome where
  | success (data : AnalyzeResponse)
  | httpError (status : Nat) (statusText : String) (detail : Option String)
  | aborted
  | transportError (message : String)
deriving DecidableEq, Repr

/-- The timeout constant: `setTimeout(() => controller.abort(), 120_000)`. -/
def timeoutMs : Nat := 120000

/-- `body.detail || fallback`: JS `||` takes the fallback when `body.detail`
is absent (`undefined`) or an empty (falsy) string. -/
def detailOrFallback (detail : Option String) (fallback : String) : String :=
  match detail with
  | some d => if d = "" then fallback else d
  | none => fallback

/-- `analyzeService` from `src/unnamed/part_004`, with the fetch outcome made
an explicit argument: validation of the trimmed query precedes the fetch;
a non-ok response throws `body.detail || "Backend returned {status}:
{statusText}"` (braces here denote interpolation in the source template
literal); an abort is translated to the fixed timeout message; any other
error is rethrown unchanged. -/
def analyzeService (query : String) (outcome : FetchOutcome) :
    Except String AnalyzeResponse :=
  if jsTrim query = "" then
    .error "Please enter a service name to analyze."
  else
    match outcome with
    | .success data => .ok data
    | .httpError status statusText detail =>
        .error (detailOrFallback detail
          ("Backend returned " ++ toString status ++ ": " ++ statusText))
    | .aborted =>
        .error "Analysis timed out. The service might be taking too long to respond."
    | .transportError message => .error message

/-! ## Search submission and request lifecycle
(`Home` in `src/unnamed/part_000`, `SearchBar` in `src/unnamed/part_002`) -/

/-- `SearchBar.handleSubmit`: `if (query.trim() && !isLoading)
onSearch(query.trim())` — returns the query passed to `onSearch`
(= `handleSearch`), or `none` when no search is initiated. -/
def handleSubmit (query : String) (isLoading : Bool) : Option String :=
  if jsTrim query ≠ "" ∧ isLoading = false then some (jsTrim query) else none

/-- The submit button disabled flag: `disabled={!query.trim() || isLoading}`. -/
def searchButtonDisabled (query : String) (isLoading : Bool) : Bool :=
  (jsTrim query == "") || isLoading

/-- The `Home` component state: `result`, `error`, `activeQuery` and the
`isPending` transition flag. `nextGen` and `inflight` are bookkeeping for the
oracle calls started by `handleSearch`: each physical call gets a fresh
generation number and stays in `inflight` until it settles. The code itself
stores no such token — accordingly `applyOutcome` below never inspects it. -/
structure AppState where
  result : Option AnalyzeResponse
  error : Option String
  activeQuery : String
  isPending : Bool
  nextGen : Nat
  inflight : List Nat
deriving DecidableEq, Repr

/-- Initial `useState` values: `null`, `null`, `""`, not pending. -/
def appInit : AppState :=
  { result := none, error := none, activeQuery := "", isPending := false,
    nextGen := 0, inflight := [] }

/-- The body of the `startTransition` callback after `await analyzeService`
settles: `setResult(data)` on success, `setError(message)` on a caught error.
It is applied unconditionally — no generation is compared. -/
def applyOutcome (s : AppState) : Except String AnalyzeResponse → AppState
  | .ok data => { s with result := some data }
  | .error message => { s with error := some message }

/-- Events driving the lifecycle: a user submit through the search bar, the
settling of oracle call `gen`, and the "Analyze another service" reset. -/
inductive AppEvent where
  | submit (query : String)
  | complete (gen : Nat) (outcome : Except String AnalyzeResponse)
  | reset

/-- One step of the lifecycle.

* `submit_start`: `SearchBar.handleSubmit` forwards a trimmed non-empty query
  while not loading; `handleSearch` clears `result`/`error`, records
  `activeQuery`, and starts exactly one oracle call inside a transition
  (pending).
* `submit_blocked`: with an empty trimmed query or while a transition is
  pending, `handleSubmit` does nothing (`query.trim() && !isLoading` fails;
  the input and button are also `disabled`): no state change, no call.
* `complete_call`: a physical oracle call that was started and has not yet
  settled does settle; its outcome is applied unconditionally and the
  transition ends.
* `reset_click`: the "Analyze another service" button (rendered only when
  `result && !isPending`) clears `result`, `error` and `activeQuery`. -/
inductive Step : AppState → AppEvent → AppState → Prop where
  | submit_start (s : AppState) (q : String)
      (hq : jsTrim q ≠ "") (hp : s.isPending = false) :
      Step s (.submit q)
        { result := none, error := none, activeQuery := jsTrim q,
          isPending := true, nextGen := s.nextGen + 1,
          inflight := s.inflight ++ [s.nextGen] }
  | submit_blocked (s : AppState) (q : String)
      (h : jsTrim q = "" ∨ s.isPending = true) :
      Step s (.submit q) s
  | complete_call (s : AppState) (g : Nat)
      (outcome : Except String AnalyzeResponse) (hg : g ∈ s.inflight) :
      Step s (.complete g outcome)
        { applyOutcome s outcome with
            isPending := false, inflight := s.inflight.erase g }
  | reset_click (s : AppState)
      (hr : s.result.isSome = true) (hp : s.isPending = false) :
      Step s .reset { s with result := none, error := none, activeQuery := "" }

/-- States reachable from the initial state by lifecycle steps. -/
inductive Reachable : AppState → Prop where
  | init : Reachable appInit
  | step (s s' : AppState) (e : AppEvent) :
      Reachable s → Step s e s' → Reachable s'

deriving instance DecidableEq for Except

/-! ## Derived observables and concrete example inputs -/

/-- Single-flight bookkeeping invariant of the lifecycle: the transition is
pending exactly while some oracle call is outstanding, at most one call is
ever outstanding, and an outstanding call is always the most recent one. -/
def LifecycleInv (s : AppState) : Prop :=
  (s.isPending = true ↔ s.inflight ≠ []) ∧
  s.inflight.length ≤ 1 ∧
  (∀ g ∈ s.inflight, g + 1 = s.nextGen)

/-- How many attribute rows with id `i` the categorized output renders in
total, across all category sections. -/
def rowsWithId (out : List (Category × List PolicyAttribute)) (i : String) : Nat :=
  (out.map (fun p => (p.2.filter (fun a => a.id == i)).length)).sum

/-- An attribute violating the invariant `points_earned ≤ weight`. -/
def overAttr : PolicyAttribute :=
  ⟨"data_selling", "Sells your data", "Yes", "bad", "", 2, 3⟩

/-- A zero-weight attribute: a report holding only this one has
`totalPossible = 0`. -/
def zeroWeightAttr : PolicyAttribute :=
  ⟨"data_selling", "Sells your data", "Unclear", "neutral", "", 0, 0⟩

/-- An ordinary attribute earning half of its weight. -/
def halfAttr : PolicyAttribute :=
  ⟨"encryption", "Encryption", "Partial", "neutral", "", 10, 5⟩

/-- Four attributes whose ids match exactly one id of each taxonomy
category. -/
def fourAttrs : List PolicyAttribute :=
  [⟨"data_selling", "Sells your data", "Yes", "bad", "", 10, 5⟩,
   ⟨"account_deletion", "Account deletion", "Available", "good", "", 10, 10⟩,
   ⟨"encryption", "Encryption", "None", "bad", "", 10, 0⟩,
   ⟨"unilateral_changes", "Unilateral changes", "Allowed", "bad", "", 5, 5⟩]

/-- Two attributes sharing the id `data_selling`. -/
def dupFirst : PolicyAttribute :=
  ⟨"data_selling", "first occurrence", "Yes", "bad", "", 10, 0⟩

/-- Second occurrence of the duplicated id. -/
def dupSecond : PolicyAttribute :=
  ⟨"data_selling", "second occurrence", "No", "good", "", 10, 10⟩

/-- A concrete successful oracle report. -/
def netflixReport : AnalyzeResponse :=
  { service_name := "Netflix", domain := "netflix.com", terms_url := "",
    privacy_url := "", trust_score := 72, grade := "B",
    analyzed_at := "2025-01-01T00:00:00Z", attributes := fourAttrs,
    error := none }

/-- The state after submitting "Netflix" from the initial state: pending,
with oracle call generation 0 outstanding. -/
def pendingNetflix : AppState :=
  { result := none, error := none, activeQuery := jsTrim "Netflix",
    isPending := true, nextGen := appInit.nextGen + 1,
    inflight := appInit.inflight ++ [appInit.nextGen] }

/-! ## Helper lemmas -/

/-- Characterization of the insertion fold behind `attrMap`: a successful
lookup returns either a stored attribute whose id is the key, or whatever
the initial map held. -/
theorem attrMap_aux_some (attrs : List PolicyAttribute)
    (m : String → Option PolicyAttribute) (k : String) (a : PolicyAttribute)
    (h : (attrs.foldl (fun m a => fun k => if k = a.id then some a else m k) m) k = some a) :
    (a ∈ attrs ∧ a.id = k) ∨ m k = some a := by
  induction attrs generalizing m with
  | nil => exact Or.inr h
  | cons b attrs ih =>
    rcases ih _ h with h1 | h2
    · exact Or.inl ⟨List.mem_cons_of_mem _ h1.1, h1.2⟩
    · by_cases hk : k = b.id
      · simp only [hk, if_pos rfl] at h2
        cases h2
        exact Or.inl ⟨List.mem_cons_self _ _, hk.symm⟩
      · simp only [if_neg hk] at h2
        exact Or.inr h2

/-- A successful `attrMap` lookup returns an attribute of the report whose
id is the looked-up key. -/
theorem attrMap_some (attrs : List PolicyAttribute) (k : String) (a : PolicyAttribute)
    (h : attrMap attrs k = some a) : a ∈ attrs ∧ a.id = k := by
  rcases attrMap_aux_some attrs _ k a h with h1 | h2
  · exact h1
  · simp at h2

/-- Applying an outcome touches only `result`/`error`. -/
theorem applyOutcome_inflight (s : AppState) (o : Except String AnalyzeResponse) :
    (applyOutcome s o).inflight = s.inflight := by
  cases o <;> rfl

/-- Applying an outcome touches only `result`/`error`. -/
theorem applyOutcome_nextGen (s : AppState) (o : Except String AnalyzeResponse) :
    (applyOutcome s o).nextGen = s.nextGen := by
  cases o <;> rfl

/-- Every reachable lifecycle state satisfies the single-flight invariant. -/
theorem reachable_inv (s : AppState) (hs : Reachable s) : LifecycleInv s := by
  induction hs with
  | init => constructor <;> simp [appInit]
  | step s s' e hr hstep ih =>
    obtain ⟨h1, h2, h3⟩ := ih
    cases hstep with
    | submit_start q hq hp =>
      have hempty : s.inflight = [] := by
        by_contra hne
        have := h1.mpr hne
        rw [hp] at this
        exact Bool.false_ne_true this
      refine ⟨by simp [hempty], by simp [hempty], ?_⟩
      intro g hg
      simp [hempty] at hg
      simp [hg]
    | submit_blocked q h => exact ⟨h1, h2, h3⟩
    | complete_call g outcome hg =>
      have hsing : s.inflight = [g] := by
        cases hin : s.inflight with
        | nil => rw [hin] at hg; cases hg
        | cons x xs =>
          rw [hin] at hg h2
          have hlen : xs.length = 0 := by simp only [List.length_cons] at h2; omega
          have hxs : xs = [] := List.length_eq_zero.mp hlen
          subst hxs
          simp only [List.mem_singleton] at hg
          simp [hg]
      refine ⟨?_, ?_, ?_⟩ <;> simp [hsing, applyOutcome_inflight]
    | reset_click hr2 hp =>
      exact ⟨h1, h2, h3⟩

/-- Within one category, the matched rows carrying id `i` are at most as
many as the occurrences of `i` in the category's id list. -/
theorem filterMap_filter_length_le (ids : List String) (attrs : List PolicyAttribute)
    (i : String) :
    ((ids.filterMap (attrMap attrs)).filter (fun a => a.id == i)).length ≤ ids.count i := by
  induction ids with
  | nil => simp
  | cons k ids ih =>
    rw [List.filterMap_cons]
    cases hk : attrMap attrs k with
    | none =>
      refine le_trans ih ?_
      by_cases hki : k = i
      · simp [List.count_cons, hki]
      · simp [List.count_cons, hki]
    | some a =>
      have ha := attrMap_some attrs k a hk
      rw [List.filter_cons]
      by_cases hai : a.id = i
      · have hki : k = i := by rw [← ha.2, hai]
        simp only [hai, beq_self_eq_true, if_pos, List.length_cons, List.count_cons, hki,
          beq_self_eq_true, if_true]
        omega
      · have hb : (a.id == i) = false := beq_eq_false_iff_ne.mpr hai
        rw [hb]
        simp only [Bool.false_eq_true, if_false]
        refine le_trans ih ?_
        simp [List.count_cons]

/-- The submission "Netflix" is reachable in one step from the initial
state. -/
theorem reach_pendingNetflix : Reachable pendingNetflix :=
  Reachable.step appInit pendingNetflix (.submit "Netflix") Reachable.init
    (Step.submit_start appInit "Netflix" (by decide) rfl)

/-! ## Claim theorems -/

/-- C1: the aggregate breakdown bar computes `totalEarned / totalPossible *
100` with no zero guard, so a report whose attribute weights sum to 0 (empty
report, or all weights zero) produces the non-finite JS value (`NaN`,
rendered as width `NaN%`), embedded as `none` — NOT the fill percent 0 the
spec's convention requires. A report with `totalPossible ≠ 0` follows the
claimed formula (third conjunct). -/
theorem scoreBreakdown_division_by_zero :
    overallFillPercent [] = none ∧
    overallFillPercent [zeroWeightAttr] = none ∧
    overallFillPercent [halfAttr] = some 50 := by
  refine ⟨rfl, ?_, ?_⟩
  · simp [overallFillPercent, totalPossible, zeroWeightAttr]
  · norm_num [overallFillPercent, totalPossible, totalEarned, halfAttr]

/-- C4 counterexample: an attribute violating `points_earned ≤ weight`
(3 points earned out of weight 2) gets fill percent 150, outside `[0, 100]`:
the code guards division by zero but does not clamp. -/
theorem attribute_fill_can_exceed_100 :
    fillPercent overAttr = 150 ∧ 100 < fillPercent overAttr := by
  constructor <;> norm_num [fillPercent, overAttr]

/-- C4 amended: the per-attribute fill percent is
`points_earned / weight * 100` when `weight > 0` and 0 otherwise (never a
crash — the function is total), and it lies in `[0, 100]` whenever the
invariant `0 ≤ points_earned ≤ weight` holds; outside the invariant it can
leave that range (see the counterexample). -/
theorem attribute_fill_formula_and_range (a : PolicyAttribute) :
    (a.weight ≤ 0 → fillPercent a = 0) ∧
    (0 < a.weight → fillPercent a = a.points_earned / a.weight * 100) ∧
    (0 ≤ a.points_earned → a.points_earned ≤ a.weight →
      0 ≤ fillPercent a ∧ fillPercent a ≤ 100) := by
  refine ⟨?_, ?_, ?_⟩
  · intro h
    simp [fillPercent, not_lt.mpr h]
  · intro h
    simp [fillPercent, h]
  · intro h0 hw
    unfold fillPercent
    by_cases hpos : a.weight > 0
    · rw [if_pos hpos]
      constructor
      · positivity
      · have h1 : a.points_earned / a.weight ≤ 1 := (div_le_one hpos).mpr hw
        nlinarith
    · rw [if_neg hpos]
      norm_num

/-- C8 counterexample: the grade `"constructor"` is not among A–F, yet the
JS bracket read finds the inherited `Object.prototype.constructor` — a
truthy function — so `colors[grade] || "#6b7280"` returns that member
instead of the neutral gray fallback the claim requires for every
unrecognized value. -/
theorem grade_inherited_key_not_gray :
    getGradeColor "constructor" = .inherited "constructor" ∧
    ¬ getGradeColor "constructor" = .str "#6b7280" := by
  constructor <;> decide

/-- C8 amended: the mapping sends A to the good green `#22c55e`, B to lime
`#84cc16`, C to yellow `#eab308`, D to orange `#f97316`, F to red
`#ef4444`; every other grade that is not an `Object.prototype` key — e.g.
`"Z"` — yields the neutral gray `#6b7280` without failing; a grade equal to
an inherited `Object.prototype` key is the exception: the bracket read
returns that truthy inherited member, not gray (see the counterexample). -/
theorem grade_color_mapping :
    getGradeColor "A" = .str "#22c55e" ∧
    getGradeColor "B" = .str "#84cc16" ∧
    getGradeColor "C" = .str "#eab308" ∧
    getGradeColor "D" = .str "#f97316" ∧
    getGradeColor "F" = .str "#ef4444" ∧
    getGradeColor "Z" = .str "#6b7280" ∧
    (∀ g, g ∉ ["A", "B", "C", "D", "F"] → g ∉ objectPrototypeKeys →
      getGradeColor g = .str "#6b7280") ∧
    (∀ g ∈ objectPrototypeKeys, getGradeColor g = .inherited g) := by
  refine ⟨by decide, by decide, by decide, by decide, by decide, by decide, ?_, ?_⟩
  · intro g hg hproto
    simp only [List.mem_cons, List.not_mem_nil, or_false, not_or] at hg
    obtain ⟨h1, h2, h3, h4, h5⟩ := hg
    have e1 : (("A" : String) == g) = false := beq_eq_false_iff_ne.mpr (Ne.symm h1)
    have e2 : (("B" : String) == g) = false := beq_eq_false_iff_ne.mpr (Ne.symm h2)
    have e3 : (("C" : String) == g) = false := beq_eq_false_iff_ne.mpr (Ne.symm h3)
    have e4 : (("D" : String) == g) = false := beq_eq_false_iff_ne.mpr (Ne.symm h4)
    have e5 : (("F" : String) == g) = false := beq_eq_false_iff_ne.mpr (Ne.symm h5)
    simp [getGradeColor, gradeLookup, gradeColors, List.find?, e1, e2, e3, e4, e5, hproto]
  · intro g hg
    simp only [objectPrototypeKeys, List.mem_cons, List.not_mem_nil, or_false] at hg
    rcases hg with rfl | rfl | rfl | rfl | rfl | rfl | rfl | rfl | rfl | rfl | rfl | rfl <;>
      decide

/-- C9: the numeric bar color is the good color for fill percent ≥ 70, the
neutral color for 40 ≤ fill < 70, the bad color for fill < 40; and the bar
color of an attribute row depends only on `weight` and `points_earned`,
never on the categorical `severity` field. -/
theorem severity_bar_color_thresholds (score : ℚ) (a b : PolicyAttribute) :
    (70 ≤ score → severityBarColor score = "var(--good)") ∧
    (40 ≤ score → score < 70 → severityBarColor score = "var(--neutral)") ∧
    (score < 40 → severityBarColor score = "var(--bad)") ∧
    (a.weight = b.weight → a.points_earned = b.points_earned →
      rowBarColor a = rowBarColor b) := by
  refine ⟨?_, ?_, ?_, ?_⟩
  · intro h
    simp [severityBarColor, h]
  · intro h1 h2
    rw [severityBarColor, if_neg (by linarith), if_pos h1]
  · intro h
    rw [severityBarColor, if_neg (by linarith), if_neg (by linarith)]
  · intro hw hp
    simp [rowBarColor, fillPercent, hw, hp]

/-- C2: a query that is empty after trimming never initiates a search:
`SearchBar.handleSubmit` invokes no `onSearch` (hence no fetch), the submit
button is disabled (the local validation signal), `analyzeService` itself
would reject such a query before any fetch regardless of how a fetch would
end, and the lifecycle takes no step out of its current state — in
particular the initial state stays `Idle`. -/
theorem empty_query_never_contacts_oracle (q : String) (b : Bool)
    (outcome : FetchOutcome) (s s' : AppState) (hq : jsTrim q = "") :
    handleSubmit q b = none ∧
    searchButtonDisabled q b = true ∧
    analyzeService q outcome = .error "Please enter a service name to analyze." ∧
    (Step s (.submit q) s' → s' = s) := by
  refine ⟨?_, ?_, ?_, ?_⟩
  · simp [handleSubmit, hq]
  · simp [searchButtonDisabled, hq]
  · simp [analyzeService, hq]
  · intro h
    cases h
    · simp_all
    · rfl

/-- Witness for C2 at the whitespace-only query `"   "`. -/
theorem empty_query_never_contacts_oracle_witness :
    handleSubmit "   " false = none ∧
    searchButtonDisabled "   " false = true ∧
    analyzeService "   " .aborted = .error "Please enter a service name to analyze." ∧
    (Step appInit (.submit "   ") appInit → appInit = appInit) :=
  empty_query_never_contacts_oracle "   " false .aborted appInit appInit (by decide)

/-- C5: the oracle call is bounded by the 120 s (`120_000` ms) timer; a call
that the timer aborts yields exactly the failure message "Analysis timed
out. The service might be taking too long to respond." for every valid
query, and applying that failure to the page state stores exactly this
message as the rendered error. -/
theorem timeout_aborts_with_fixed_message (q : String) (hq : jsTrim q ≠ "") :
    timeoutMs = 120 * 1000 ∧
    analyzeService q .aborted =
      .error "Analysis timed out. The service might be taking too long to respond." ∧
    (∀ s : AppState,
      (applyOutcome s
        (.error "Analysis timed out. The service might be taking too long to respond.")).error =
      some "Analysis timed out. The service might be taking too long to respond.") := by
  refine ⟨rfl, ?_, fun s => rfl⟩
  simp [analyzeService, hq]

/-- Witness for C5 at the query `"Netflix"`. -/
theorem timeout_aborts_with_fixed_message_witness :
    timeoutMs = 120 * 1000 ∧
    analyzeService "Netflix" .aborted =
      .error "Analysis timed out. The service might be taking too long to respond." ∧
    (∀ s : AppState,
      (applyOutcome s
        (.error "Analysis timed out. The service might be taking too long to respond.")).error =
      some "Analysis timed out. The service might be taking too long to respond.") :=
  timeout_aborts_with_fixed_message "Netflix" (by decide)

/-- C6 counterexample: a 503 response whose JSON body DOES contain a `detail`
field holding the empty string is not surfaced verbatim — `body.detail ||
fallback` treats the falsy empty string like an absent field, so the
synthesized status line is thrown instead of the empty detail text the claim
requires. -/
theorem empty_detail_not_surfaced :
    analyzeService "Netflix" (.httpError 503 "Service Unavailable" (some "")) =
      .error "Backend returned 503: Service Unavailable" ∧
    ¬ analyzeService "Netflix" (.httpError 503 "Service Unavailable" (some "")) =
      .error "" := by
  constructor <;> decide

/-- C6 amended: on a non-success HTTP status, a NON-EMPTY `detail` string in
the JSON body is surfaced verbatim; an absent or unparseable `detail` — and
likewise a present but empty one, since JS `||` treats the empty string as
falsy — yields "Backend returned {status}: {statusText}" built from the
status code and status text. -/
theorem http_error_detail_or_status_line (q : String) (status : Nat)
    (statusText d : String) (hq : jsTrim q ≠ "") :
    (d ≠ "" → analyzeService q (.httpError status statusText (some d)) = .error d) ∧
    (analyzeService q (.httpError status statusText none) =
      .error ("Backend returned " ++ toString status ++ ": " ++ statusText)) ∧
    (analyzeService q (.httpError status statusText (some "")) =
      .error ("Backend returned " ++ toString status ++ ": " ++ statusText)) := by
  refine ⟨?_, ?_, ?_⟩
  · intro hd
    simp [analyzeService, hq, detailOrFallback, hd]
  · simp [analyzeService, hq, detailOrFallback]
  · simp [analyzeService, hq, detailOrFallback]

/-- Witness for the amended C6: a 503 with detail "rate limited". -/
theorem http_error_detail_or_status_line_witness :
    ("rate limited" ≠ "" →
      analyzeService "Netflix" (.httpError 503 "Service Unavailable" (some "rate limited")) =
        .error "rate limited") ∧
    (analyzeService "Netflix" (.httpError 503 "Service Unavailable" none) =
      .error ("Backend returned " ++ toString 503 ++ ": " ++ "Service Unavailable")) ∧
    (analyzeService "Netflix" (.httpError 503 "Service Unavailable" (some "")) =
      .error ("Backend returned " ++ toString 503 ++ ": " ++ "Service Unavailable")) :=
  http_error_detail_or_status_line "Netflix" 503 "Service Unavailable" "rate limited" (by decide)

/-- C3: in every reachable state, a submit attempted while a call is pending
is a no-op (the `query.trim() && !isLoading` guard and the disabled controls
reject it), so no second call ever starts while one is in flight; and any
oracle completion that is applied belongs to the newest submission (its
generation is the current `nextGen - 1`). Hence a superseded call's late
outcome can never overwrite state produced by a later submission — there
never IS a stale outcome to apply, which is the single-flight guarantee the
claim describes via a generation-counter guard. -/
theorem stale_completion_never_applied (s s' : AppState) (hs : Reachable s) :
    (∀ q, s.isPending = true → Step s (.submit q) s' → s' = s) ∧
    (∀ g outcome, Step s (.complete g outcome) s' → g + 1 = s.nextGen) := by
  constructor
  · intro q hpend hstep
    cases hstep
    · simp_all
    · rfl
  · intro g outcome hstep
    have hg : g ∈ s.inflight := by cases hstep; assumption
    exact (reachable_inv s hs).2.2 g hg

/-- Witness for C3 in the reachable pending state after submitting
"Netflix": a second submit ("Spotify") while pending changes nothing, and
the completion of call 0 is the completion of the newest submission. -/
theorem stale_completion_never_applied_witness :
    pendingNetflix = pendingNetflix ∧ 0 + 1 = pendingNetflix.nextGen := by
  constructor
  · exact (stale_completion_never_applied pendingNetflix pendingNetflix
      reach_pendingNetflix).1 "Spotify" rfl
      (Step.submit_blocked pendingNetflix "Spotify" (Or.inr rfl))
  · exact (stale_completion_never_applied pendingNetflix _
      reach_pendingNetflix).2 0 (.ok netflixReport)
      (Step.complete_call pendingNetflix 0 (.ok netflixReport) (by decide))

/-- C7: categorized display. Concretely, a report whose attribute ids are
exactly data_selling, account_deletion, encryption, unilateral_changes
classifies into exactly the four taxonomy categories in declaration order,
with exactly one matched attribute each. In general the emitted categories
are a subsequence of `CATEGORIES` (fixed declaration order), every emitted
category is non-empty and from the taxonomy, every rendered attribute is an
attribute of the report matched by id against its category's id list, and an
attribute whose id occurs in no taxonomy category appears nowhere in the
output. -/
theorem classify_taxonomy_order_and_example :
    classify fourAttrs =
      [(⟨"Data Practices", "🔐", ["data_selling", "data_sharing", "third_party_tracking"]⟩,
          [⟨"data_selling", "Sells your data", "Yes", "bad", "", 10, 5⟩]),
       (⟨"Your Rights", "👤", ["account_deletion", "class_action_waiver", "arbitration_clause"]⟩,
          [⟨"account_deletion", "Account deletion", "Available", "good", "", 10, 10⟩]),
       (⟨"Security & Retention", "🛡️", ["encryption", "data_retention", "government_requests"]⟩,
          [⟨"encryption", "Encryption", "None", "bad", "", 10, 0⟩]),
       (⟨"Legal Terms", "📋", ["unilateral_changes", "liability_limitation", "content_license"]⟩,
          [⟨"unilateral_changes", "Unilateral changes", "Allowed", "bad", "", 5, 5⟩])] ∧
    (∀ attrs : List PolicyAttribute,
      ((classify attrs).map Prod.fst).Sublist CATEGORIES) ∧
    (∀ (attrs : List PolicyAttribute) (p : Category × List PolicyAttribute),
      p ∈ classify attrs →
        p.2 ≠ [] ∧ p.1 ∈ CATEGORIES ∧ ∀ a ∈ p.2, a ∈ attrs ∧ a.id ∈ p.1.ids) ∧
    (∀ (attrs : List PolicyAttribute) (a : PolicyAttribute),
      (∀ c ∈ CATEGORIES, a.id ∉ c.ids) →
        ∀ p ∈ classify attrs, a ∉ p.2) := by
  refine ⟨by decide, ?_, ?_, ?_⟩
  · intro attrs
    have h1 : (classify attrs).Sublist
        (CATEGORIES.map (fun c => (c, c.ids.filterMap (attrMap attrs)))) :=
      List.filter_sublist _
    have h2 := h1.map Prod.fst
    rwa [List.map_map] at h2
  · intro attrs p hp
    unfold classify at hp
    rw [List.mem_filter] at hp
    obtain ⟨hmem, hne⟩ := hp
    rw [List.mem_map] at hmem
    obtain ⟨c, hc, hceq⟩ := hmem
    refine ⟨?_, ?_, ?_⟩
    · intro h0
      rw [h0] at hne
      simp at hne
    · rw [← hceq]; exact hc
    · intro a ha
      rw [← hceq] at ha
      simp only at ha
      rw [List.mem_filterMap] at ha
      obtain ⟨k, hk, hka⟩ := ha
      have hres := attrMap_some attrs k a hka
      rw [← hceq]
      exact ⟨hres.1, hres.2 ▸ hk⟩
  · intro attrs a htax p hp hap
    unfold classify at hp
    rw [List.mem_filter] at hp
    obtain ⟨hmem, hne⟩ := hp
    rw [List.mem_map] at hmem
    obtain ⟨c, hc, hceq⟩ := hmem
    rw [← hceq] at hap
    simp only at hap
    rw [List.mem_filterMap] at hap
    obtain ⟨k, hk, hka⟩ := hap
    have hres := attrMap_some attrs k a hka
    exact htax c hc (hres.2 ▸ hk)

/-- C10: the id-to-attribute map is built with last-write-wins. Appending an
attribute to a report makes it the one looked up under its id; concretely,
with two attributes sharing id data_selling the categorized output keeps
exactly the second occurrence; and across the whole categorized output each
id contributes at most one attribute row (the taxonomy lists each id once
and duplicates collapse in the map). -/
theorem duplicate_ids_last_write_wins :
    (∀ (attrs : List PolicyAttribute) (a : PolicyAttribute),
      attrMap (attrs ++ [a]) a.id = some a) ∧
    attrMap [dupFirst, dupSecond] "data_selling" = some dupSecond ∧
    classify [dupFirst, dupSecond] =
      [(⟨"Data Practices", "🔐", ["data_selling", "data_sharing", "third_party_tracking"]⟩,
          [dupSecond])] ∧
    (∀ (attrs : List PolicyAttribute) (i : String),
      rowsWithId (classify attrs) i ≤ 1) := by
  refine ⟨?_, by decide, by decide, ?_⟩
  · intro attrs a
    simp [attrMap, List.foldl_append]
  · intro attrs i
    have h1 : rowsWithId (classify attrs) i ≤
        rowsWithId (CATEGORIES.map (fun c => (c, c.ids.filterMap (attrMap attrs)))) i := by
      unfold rowsWithId classify
      apply List.Sublist.sum_le_sum
      · exact (List.filter_sublist _).map _
      · intro x _; exact Nat.zero_le x
    have h2 : rowsWithId (CATEGORIES.map (fun c => (c, c.ids.filterMap (attrMap attrs)))) i ≤
        (CATEGORIES.map (fun c => c.ids.count i)).sum := by
      unfold rowsWithId
      rw [List.map_map]
      apply List.sum_le_sum
      intro c _
      exact filterMap_filter_length_le c.ids attrs i
    have h3 : (CATEGORIES.map (fun c => c.ids.count i)).sum ≤ 1 := by
      have hn : ((CATEGORIES.map (fun c => c.ids)).flatten).Nodup := by decide
      have hc := List.nodup_iff_count_le_one.mp hn i
      rw [List.count_flatten] at hc
      simpa [List.map_map] using hc
    omega
